import Mathlib

/-!
Verification of the longitudinal vehicle model from
`Course1FinalProject/Longitudinal_Vehicle_Model.ipynb`.

The notebook defines a Python class `Vehicle` holding fixed physical
parameters, five state variables (`x`, `v`, `a`, `w_e`, `w_e_dot`), a stored
`sample_time` field, and — after the first `step` call — five derived
intermediate attributes (`Te`, `Fload`, `w_w`, `s`, `Fx`) that `step` assigns
to `self`.  We embed the object's full attribute set as one structure over ℝ.

The Python `step` body reads the free (module-global) variable `sample_time`,
set to `0.01` in the driver cells, not the instance field `self.sample_time`
assigned in `__init__`.  The global is therefore modelled as an explicit
argument `sample_time` of `step`, distinct from the structure field
`sample_time`.
-/

noncomputable section

@[ext]
structure Vehicle where
  a_0 : ℝ
  a_1 : ℝ
  a_2 : ℝ
  GR : ℝ
  r_e : ℝ
  J_e : ℝ
  m : ℝ
  g : ℝ
  c_a : ℝ
  c_r1 : ℝ
  c : ℝ
  F_max : ℝ
  x : ℝ
  v : ℝ
  a : ℝ
  w_e : ℝ
  w_e_dot : ℝ
  sample_time : ℝ
  Te : ℝ
  Fload : ℝ
  w_w : ℝ
  s : ℝ
  Fx : ℝ

/-- The constructor `Vehicle.__init__`: default parameters and initial state.
In Python the intermediate attributes `Te`, `Fload`, `w_w`, `s`, `Fx` do not
exist before the first `step` call; they are modelled here as fields whose
initial contents (0) are irrelevant: `step` never reads them (proved below). -/
def Vehicle.init : Vehicle where
  a_0 := 400
  a_1 := 0.1
  a_2 := -0.0002
  GR := 0.35
  r_e := 0.3
  J_e := 10
  m := 2000
  g := 9.81
  c_a := 1.36
  c_r1 := 0.01
  c := 10000
  F_max := 10000
  x := 0
  v := 5
  a := 0
  w_e := 100
  w_e_dot := 0
  sample_time := 0.01
  Te := 0
  Fload := 0
  w_w := 0
  s := 0
  Fx := 0

/-- `Vehicle.reset`: restores the five state variables, touching nothing else. -/
def Vehicle.reset (veh : Vehicle) : Vehicle :=
  { veh with x := 0, v := 5, a := 0, w_e := 100, w_e_dot := 0 }

/-- `Vehicle.step(self, throttle, alpha)`.  The argument `sample_time` is the
module-global `sample_time` read by the Python body (`self.sample_time` is the
structure field, which the body never reads).  The assignments are sequential
mutations of `self`; each `let` below names the value an attribute holds after
its assignment, in the source's order. -/
def Vehicle.step (veh : Vehicle) (sample_time throttle alpha : ℝ) : Vehicle :=
  let x := veh.x + veh.v * sample_time
  let v := veh.v + veh.a * sample_time
  let w_e := veh.w_e + veh.w_e_dot * sample_time
  let Te := throttle * (veh.a_0 + veh.a_1 * w_e + veh.a_2 * w_e * w_e)
  let Fload := veh.c_a * v * v + veh.c_r1 * v + veh.m * veh.g * Real.sin alpha
  let w_e_dot := (Te - veh.GR * (veh.r_e * Fload)) / veh.J_e
  let w_w := veh.GR * w_e
  let s := (w_w * veh.r_e - v) / v
  let Fx := if |s| < 1 then veh.c * s else veh.F_max
  let a := (Fx - Fload) / veh.m
  { veh with
    x := x
    v := v
    w_e := w_e
    Te := Te
    Fload := Fload
    w_e_dot := w_e_dot
    w_w := w_w
    s := s
    Fx := Fx
    a := a }

/-- Fallible view of `step`: Python raises `ZeroDivisionError` when a division's
divisor is `0.0`.  The body divides by `self.J_e`, by the just-integrated
velocity, and by `self.m`; when any of these is zero the call raises (leaving
the object partially updated — the error case carries no result here),
otherwise it succeeds with the full update. -/
def Vehicle.stepChecked (veh : Vehicle) (sample_time throttle alpha : ℝ) :
    Option Vehicle :=
  if veh.J_e = 0 ∨ veh.v + veh.a * sample_time = 0 ∨ veh.m = 0 then none
  else some (veh.step sample_time throttle alpha)

/-- The five state variables as a tuple (position, velocity, acceleration,
engine speed, engine angular acceleration). -/
def Vehicle.stateVec (veh : Vehicle) : ℝ × ℝ × ℝ × ℝ × ℝ :=
  (veh.x, veh.v, veh.a, veh.w_e, veh.w_e_dot)

/-- The fixed parameters (and the stored `sample_time` field) as a tuple. -/
def Vehicle.params (veh : Vehicle) :
    ℝ × ℝ × ℝ × ℝ × ℝ × ℝ × ℝ × ℝ × ℝ × ℝ × ℝ × ℝ × ℝ :=
  (veh.a_0, veh.a_1, veh.a_2, veh.GR, veh.r_e, veh.J_e, veh.m, veh.g,
   veh.c_a, veh.c_r1, veh.c, veh.F_max, veh.sample_time)

/-- Two vehicles agreeing on everything `step` reads: the parameters, the
stored `sample_time`, and the five state variables (not the intermediates). -/
def Vehicle.coreAgree (v1 v2 : Vehicle) : Prop :=
  v1.params = v2.params ∧ v1.stateVec = v2.stateVec

/-- Driver loop: fold `step` over a list of `(throttle, alpha)` input pairs,
with the global `sample_time` fixed across the run as in the notebook. -/
def Vehicle.run (veh : Vehicle) (sample_time : ℝ) :
    List (ℝ × ℝ) → Vehicle
  | [] => veh
  | (t, al) :: rest => (veh.step sample_time t al).run sample_time rest

/-- State trajectory of a run: the five state variables after each step. -/
def Vehicle.traj (veh : Vehicle) (sample_time : ℝ) :
    List (ℝ × ℝ) → List (ℝ × ℝ × ℝ × ℝ × ℝ)
  | [] => []
  | (t, al) :: rest =>
      (veh.step sample_time t al).stateVec ::
        (veh.step sample_time t al).traj sample_time rest

/-- The incline-profile helper `alpha(x)` of the ramp scenario.  The Python
function writes its answer into the module-global `alpha_a` and returns that
global; when no branch fires (only possible for `x < 0`) the stale global is
returned unchanged.  The prior global is the first argument; the result is
`(return value, new global)`. -/
def alpha (alpha_a x : ℝ) : ℝ × ℝ :=
  if x ≤ 60 / Real.cos (Real.arctan (3 / 60)) ∧ x ≥ 0 then
    (Real.arctan (3 / 60), Real.arctan (3 / 60))
  else if x > 60 / Real.cos (Real.arctan (3 / 60)) ∧
      x ≤ 60 / Real.cos (Real.arctan (3 / 60)) + 90 / Real.cos (Real.arctan (9 / 90)) then
    (Real.arctan (9 / 90), Real.arctan (9 / 90))
  else if x > 60 / Real.cos (Real.arctan (3 / 60)) + 90 / Real.cos (Real.arctan (9 / 90)) then
    (0, 0)
  else (alpha_a, alpha_a)

/-- C1: step first advances position, velocity and engine speed by Euler
integration of the previous step's derivatives — position += velocity·dt,
velocity += acceleration·dt, engine_speed += engine_accel·dt — before any
derivative is recomputed, so the just-updated position, velocity and engine
speed never depend on this call's throttle or incline inputs. -/
theorem step_integrates_previous_derivatives_first
    (veh : Vehicle) (sample_time throttle alpha : ℝ) :
    ((veh.step sample_time throttle alpha).x = veh.x + veh.v * sample_time ∧
     (veh.step sample_time throttle alpha).v = veh.v + veh.a * sample_time ∧
     (veh.step sample_time throttle alpha).w_e
        = veh.w_e + veh.w_e_dot * sample_time) ∧
    ∀ throttle2 alpha2 : ℝ,
      (veh.step sample_time throttle alpha).x
          = (veh.step sample_time throttle2 alpha2).x ∧
      (veh.step sample_time throttle alpha).v
          = (veh.step sample_time throttle2 alpha2).v ∧
      (veh.step sample_time throttle alpha).w_e
          = (veh.step sample_time throttle2 alpha2).w_e :=
  ⟨⟨rfl, rfl, rfl⟩, fun _ _ => ⟨rfl, rfl, rfl⟩⟩

/-- C9: a step's inputs are invisible in position, velocity and engine speed
immediately after that step (they only enter the derivative fields), and
position is additionally unchanged after one further step with any inputs:
inputs reach velocity/engine speed one call later and position two calls
later. -/
theorem step_inputs_delayed_two_steps
    (veh : Vehicle) (sample_time throttle1 alpha1 throttle2 alpha2 : ℝ) :
    (veh.step sample_time throttle1 alpha1).x
        = (veh.step sample_time throttle2 alpha2).x ∧
    (veh.step sample_time throttle1 alpha1).v
        = (veh.step sample_time throttle2 alpha2).v ∧
    (veh.step sample_time throttle1 alpha1).w_e
        = (veh.step sample_time throttle2 alpha2).w_e ∧
    ∀ throttle3 alpha3 : ℝ,
      ((veh.step sample_time throttle1 alpha1).step sample_time throttle3 alpha3).x
        = ((veh.step sample_time throttle2 alpha2).step sample_time throttle3 alpha3).x :=
  ⟨rfl, rfl, rfl, fun _ _ => rfl⟩

/-- C5: reset sets exactly position=0, velocity=5, acceleration=0,
engine_speed=100, engine_accel=0, leaves every fixed parameter (including the
stored sample_time) unchanged, and reproduces the default initial state
fields exactly. -/
theorem reset_restores_initial_state_frame (veh : Vehicle) :
    veh.reset.x = 0 ∧ veh.reset.v = 5 ∧ veh.reset.a = 0 ∧
    veh.reset.w_e = 100 ∧ veh.reset.w_e_dot = 0 ∧
    veh.reset.params = veh.params ∧
    veh.reset.stateVec = Vehicle.init.stateVec :=
  ⟨rfl, rfl, rfl, rfl, rfl, rfl, rfl⟩

/-- C7 counterexample: step mutates an attribute outside the five state
fields — from the initial model, one step with throttle 0.2 on flat road
changes the stored engine-torque attribute Te (to 81.6). -/
theorem step_mutates_intermediate_attribute :
    (Vehicle.init.step 0.01 0.2 0).Te ≠ Vehicle.init.Te := by
  simp [Vehicle.step, Vehicle.init]
  norm_num

/-- C7 amended: step never mutates any fixed parameter nor the stored
sample_time field; besides the five state fields it writes only the derived
intermediate attributes Te, Fload, w_w, s, Fx. -/
theorem step_never_mutates_parameters
    (veh : Vehicle) (sample_time throttle alpha : ℝ) :
    (veh.step sample_time throttle alpha).a_0 = veh.a_0 ∧
    (veh.step sample_time throttle alpha).a_1 = veh.a_1 ∧
    (veh.step sample_time throttle alpha).a_2 = veh.a_2 ∧
    (veh.step sample_time throttle alpha).GR = veh.GR ∧
    (veh.step sample_time throttle alpha).r_e = veh.r_e ∧
    (veh.step sample_time throttle alpha).J_e = veh.J_e ∧
    (veh.step sample_time throttle alpha).m = veh.m ∧
    (veh.step sample_time throttle alpha).g = veh.g ∧
    (veh.step sample_time throttle alpha).c_a = veh.c_a ∧
    (veh.step sample_time throttle alpha).c_r1 = veh.c_r1 ∧
    (veh.step sample_time throttle alpha).c = veh.c ∧
    (veh.step sample_time throttle alpha).F_max = veh.F_max ∧
    (veh.step sample_time throttle alpha).sample_time = veh.sample_time :=
  ⟨rfl, rfl, rfl, rfl, rfl, rfl, rfl, rfl, rfl, rfl, rfl, rfl, rfl⟩

/-- C2: after step (from a state with nonzero velocity), the tire-force
attribute Fx equals tire_stiffness·slip when the slip ratio has magnitude
below 1, and equals exactly F_max (sign not re-applied) otherwise, where the
slip ratio is (GR·engine_speed·wheel_radius − velocity)/velocity evaluated at
the just-integrated engine speed and velocity. -/
theorem step_tire_force_slip_law
    (veh : Vehicle) (sample_time throttle alpha : ℝ) (h : veh.v ≠ 0) :
    (|(veh.GR * (veh.w_e + veh.w_e_dot * sample_time) * veh.r_e
        - (veh.v + veh.a * sample_time)) / (veh.v + veh.a * sample_time)| < 1 →
      (veh.step sample_time throttle alpha).Fx
        = veh.c * ((veh.GR * (veh.w_e + veh.w_e_dot * sample_time) * veh.r_e
            - (veh.v + veh.a * sample_time)) / (veh.v + veh.a * sample_time))) ∧
    (1 ≤ |(veh.GR * (veh.w_e + veh.w_e_dot * sample_time) * veh.r_e
        - (veh.v + veh.a * sample_time)) / (veh.v + veh.a * sample_time)| →
      (veh.step sample_time throttle alpha).Fx = veh.F_max) := by
  constructor
  · intro hlt
    simp only [Vehicle.step]
    rw [if_pos hlt]
  · intro hge
    simp only [Vehicle.step]
    rw [if_neg (not_lt.mpr hge)]

/-- C3: after step, the engine-acceleration field equals
(engine_torque − GR·wheel_radius·load_force)/engine_inertia with the torque
evaluated at the just-integrated engine speed and the load force at the
just-integrated velocity, and the acceleration field equals
(tire_force − load_force)/mass. -/
theorem step_derivative_formulas
    (veh : Vehicle) (sample_time throttle alpha : ℝ) :
    (veh.step sample_time throttle alpha).w_e_dot
      = (throttle * (veh.a_0 + veh.a_1 * (veh.w_e + veh.w_e_dot * sample_time)
            + veh.a_2 * (veh.w_e + veh.w_e_dot * sample_time) ^ 2)
          - veh.GR * veh.r_e
            * (veh.c_a * (veh.v + veh.a * sample_time) ^ 2
               + veh.c_r1 * (veh.v + veh.a * sample_time)
               + veh.m * veh.g * Real.sin alpha)) / veh.J_e ∧
    (veh.step sample_time throttle alpha).a
      = ((veh.step sample_time throttle alpha).Fx
          - (veh.c_a * (veh.v + veh.a * sample_time) ^ 2
             + veh.c_r1 * (veh.v + veh.a * sample_time)
             + veh.m * veh.g * Real.sin alpha)) / veh.m := by
  constructor
  · simp only [Vehicle.step]
    ring_nf
  · simp only [Vehicle.step]
    ring_nf

/-- C4 (refuting the claim on the code): the integration increment in step is
the module-global sample_time, not the instance's stored field.  With the
global at 0.02 while the instance field holds its constructed value 0.01, one
step from the initial state advances position by velocity·0.02, which differs
from velocity·self.sample_time. -/
theorem step_reads_global_sample_time :
    Vehicle.init.sample_time = 0.01 ∧
    (Vehicle.init.step 0.02 0.2 0).x = Vehicle.init.x + Vehicle.init.v * 0.02 ∧
    (Vehicle.init.step 0.02 0.2 0).x
      ≠ Vehicle.init.x + Vehicle.init.v * Vehicle.init.sample_time := by
  refine ⟨rfl, rfl, ?_⟩
  simp [Vehicle.step, Vehicle.init]
  norm_num

/-- Witness for C2: at the default initial model, velocity 5 is nonzero and
the tire-force law holds at global sample_time 0.01, throttle 0.2, flat road. -/
theorem step_tire_force_slip_law_witness :
    Vehicle.init.v ≠ 0 ∧
    ((|(Vehicle.init.GR * (Vehicle.init.w_e + Vehicle.init.w_e_dot * 0.01) * Vehicle.init.r_e
        - (Vehicle.init.v + Vehicle.init.a * 0.01)) / (Vehicle.init.v + Vehicle.init.a * 0.01)| < 1 →
      (Vehicle.init.step 0.01 0.2 0).Fx
        = Vehicle.init.c * ((Vehicle.init.GR * (Vehicle.init.w_e + Vehicle.init.w_e_dot * 0.01) * Vehicle.init.r_e
            - (Vehicle.init.v + Vehicle.init.a * 0.01)) / (Vehicle.init.v + Vehicle.init.a * 0.01))) ∧
     (1 ≤ |(Vehicle.init.GR * (Vehicle.init.w_e + Vehicle.init.w_e_dot * 0.01) * Vehicle.init.r_e
        - (Vehicle.init.v + Vehicle.init.a * 0.01)) / (Vehicle.init.v + Vehicle.init.a * 0.01)| →
      (Vehicle.init.step 0.01 0.2 0).Fx = Vehicle.init.F_max)) :=
  ⟨by norm_num [Vehicle.init],
   step_tire_force_slip_law Vehicle.init 0.01 0.2 0 (by norm_num [Vehicle.init])⟩

/-- C6 counterexample: a state whose current (pre-call) velocity is nonzero on
which step nevertheless divides by zero — velocity 5 with acceleration −500 at
global sample_time 0.01 integrates to velocity 0, and the slip-ratio division
raises. -/
theorem step_raises_despite_nonzero_velocity :
    ({ Vehicle.init with a := -500 } : Vehicle).v ≠ 0 ∧
    ({ Vehicle.init with a := -500 } : Vehicle).stepChecked 0.01 0.2 0 = none := by
  constructor
  · norm_num [Vehicle.init]
  · have hc : ({ Vehicle.init with a := -500 } : Vehicle).J_e = 0 ∨
        ({ Vehicle.init with a := -500 } : Vehicle).v
          + ({ Vehicle.init with a := -500 } : Vehicle).a * 0.01 = 0 ∨
        ({ Vehicle.init with a := -500 } : Vehicle).m = 0 := by
      right; left
      norm_num [Vehicle.init]
    simp only [Vehicle.stepChecked]
    rw [if_pos hc]

/-- C6 amended: whenever the just-integrated velocity
(velocity + acceleration·sample_time) is nonzero and the divisor parameters
engine_inertia and mass are nonzero (as they are at construction), step raises
nothing and fully succeeds with the complete state update. -/
theorem stepChecked_succeeds_when_divisors_nonzero
    (veh : Vehicle) (sample_time throttle alpha : ℝ)
    (hv : veh.v + veh.a * sample_time ≠ 0)
    (hJ : veh.J_e ≠ 0) (hm : veh.m ≠ 0) :
    veh.stepChecked sample_time throttle alpha
      = some (veh.step sample_time throttle alpha) := by
  have hc : ¬(veh.J_e = 0 ∨ veh.v + veh.a * sample_time = 0 ∨ veh.m = 0) := by
    push_neg
    exact ⟨hJ, hv, hm⟩
  simp only [Vehicle.stepChecked]
  rw [if_neg hc]

/-- Witness for the amended C6 at the default initial model. -/
theorem stepChecked_succeeds_witness :
    (Vehicle.init.v + Vehicle.init.a * 0.01 ≠ 0 ∧ Vehicle.init.J_e ≠ 0 ∧
      Vehicle.init.m ≠ 0) ∧
    Vehicle.init.stepChecked 0.01 0.2 0 = some (Vehicle.init.step 0.01 0.2 0) :=
  ⟨⟨by norm_num [Vehicle.init], by norm_num [Vehicle.init], by norm_num [Vehicle.init]⟩,
   stepChecked_succeeds_when_divisors_nonzero Vehicle.init 0.01 0.2 0
     (by norm_num [Vehicle.init]) (by norm_num [Vehicle.init])
     (by norm_num [Vehicle.init])⟩

/-- Helper: the return value of the incline-profile helper on nonnegative
positions, case by case, for an arbitrary prior global. -/
theorem alpha_fst_cases (alpha_a x : ℝ) (hx : 0 ≤ x) :
    (x ≤ 60 / Real.cos (Real.arctan (3 / 60)) →
      (alpha alpha_a x).1 = Real.arctan (3 / 60)) ∧
    (60 / Real.cos (Real.arctan (3 / 60)) < x →
      x ≤ 60 / Real.cos (Real.arctan (3 / 60)) + 90 / Real.cos (Real.arctan (9 / 90)) →
      (alpha alpha_a x).1 = Real.arctan (9 / 90)) ∧
    (60 / Real.cos (Real.arctan (3 / 60)) + 90 / Real.cos (Real.arctan (9 / 90)) < x →
      (alpha alpha_a x).1 = 0) := by
  refine ⟨?_, ?_, ?_⟩
  · intro h1
    simp only [alpha]
    rw [if_pos ⟨h1, hx⟩]
  · intro h1 h2
    have hn1 : ¬(x ≤ 60 / Real.cos (Real.arctan (3 / 60)) ∧ x ≥ 0) :=
      fun hc => absurd hc.1 (not_le.mpr h1)
    simp only [alpha]
    rw [if_neg hn1, if_pos ⟨h1, h2⟩]
  · intro h3
    have hb2 : 0 < 90 / Real.cos (Real.arctan (9 / 90)) := by
      have hc := Real.cos_arctan_pos (9 / 90)
      positivity
    have hn1 : ¬(x ≤ 60 / Real.cos (Real.arctan (3 / 60)) ∧ x ≥ 0) := by
      rintro ⟨hle, -⟩
      linarith
    have hn2 : ¬(x > 60 / Real.cos (Real.arctan (3 / 60)) ∧
        x ≤ 60 / Real.cos (Real.arctan (3 / 60)) + 90 / Real.cos (Real.arctan (9 / 90))) := by
      rintro ⟨-, hle⟩
      exact absurd hle (not_le.mpr h3)
    simp only [alpha]
    rw [if_neg hn1, if_neg hn2, if_pos h3]

/-- C8: the incline-profile helper is, on nonnegative positions, a function of
the position alone: it returns arctan(3/60) up to the first breakpoint,
arctan(9/90) on the second segment, 0 beyond, and its result does not depend
on the global left over from earlier invocations. -/
theorem alpha_piecewise_of_position_only (alpha_a x : ℝ) (hx : 0 ≤ x) :
    (x ≤ 60 / Real.cos (Real.arctan (3 / 60)) →
      (alpha alpha_a x).1 = Real.arctan (3 / 60)) ∧
    (60 / Real.cos (Real.arctan (3 / 60)) < x →
      x ≤ 60 / Real.cos (Real.arctan (3 / 60)) + 90 / Real.cos (Real.arctan (9 / 90)) →
      (alpha alpha_a x).1 = Real.arctan (9 / 90)) ∧
    (60 / Real.cos (Real.arctan (3 / 60)) + 90 / Real.cos (Real.arctan (9 / 90)) < x →
      (alpha alpha_a x).1 = 0) ∧
    (∀ alpha_b : ℝ, (alpha alpha_a x).1 = (alpha alpha_b x).1) := by
  obtain ⟨c1, c2, c3⟩ := alpha_fst_cases alpha_a x hx
  refine ⟨c1, c2, c3, ?_⟩
  intro alpha_b
  obtain ⟨d1, d2, d3⟩ := alpha_fst_cases alpha_b x hx
  by_cases h1 : x ≤ 60 / Real.cos (Real.arctan (3 / 60))
  · rw [c1 h1, d1 h1]
  · push_neg at h1
    by_cases h2 : x ≤ 60 / Real.cos (Real.arctan (3 / 60))
        + 90 / Real.cos (Real.arctan (9 / 90))
    · rw [c2 h1 h2, d2 h1 h2]
    · push_neg at h2
      rw [c3 h2, d3 h2]

/-- Witness for C8 at position 0 with stale global 7. -/
theorem alpha_piecewise_witness :
    (0 : ℝ) ≤ 0 ∧
    (((0 : ℝ) ≤ 60 / Real.cos (Real.arctan (3 / 60)) →
      (alpha 7 0).1 = Real.arctan (3 / 60)) ∧
    (60 / Real.cos (Real.arctan (3 / 60)) < (0 : ℝ) →
      (0 : ℝ) ≤ 60 / Real.cos (Real.arctan (3 / 60)) + 90 / Real.cos (Real.arctan (9 / 90)) →
      (alpha 7 0).1 = Real.arctan (9 / 90)) ∧
    (60 / Real.cos (Real.arctan (3 / 60)) + 90 / Real.cos (Real.arctan (9 / 90)) < (0 : ℝ) →
      (alpha 7 0).1 = 0) ∧
    (∀ alpha_b : ℝ, (alpha 7 0).1 = (alpha alpha_b 0).1)) :=
  ⟨le_refl 0, alpha_piecewise_of_position_only 7 0 (le_refl 0)⟩

/-- Helper: step only reads the parameters, the stored sample_time and the
five state fields — two vehicles agreeing on those step to equal vehicles. -/
theorem step_congr {v1 v2 : Vehicle} (h : v1.coreAgree v2)
    (sample_time throttle alpha : ℝ) :
    v1.step sample_time throttle alpha = v2.step sample_time throttle alpha := by
  obtain ⟨hp, hs⟩ := h
  simp only [Vehicle.params, Prod.mk.injEq] at hp
  simp only [Vehicle.stateVec, Prod.mk.injEq] at hs
  obtain ⟨e1, e2, e3, e4, e5, e6, e7, e8, e9, e10, e11, e12, e13⟩ := hp
  obtain ⟨f1, f2, f3, f4, f5⟩ := hs
  ext <;> simp [Vehicle.step, e1, e2, e3, e4, e5, e6, e7, e8, e9, e10, e11,
    e12, e13, f1, f2, f3, f4, f5]

/-- Helper: a run leaves the parameter tuple untouched. -/
theorem run_params (veh : Vehicle) (sample_time : ℝ) (inputs : List (ℝ × ℝ)) :
    (veh.run sample_time inputs).params = veh.params := by
  induction inputs generalizing veh with
  | nil => rfl
  | cons p rest ih =>
    obtain ⟨t, al⟩ := p
    simp only [Vehicle.run]
    rw [ih]
    rfl

/-- Helper: vehicles agreeing on parameters and state produce the same state
trajectory on any input sequence. -/
theorem traj_congr {v1 v2 : Vehicle} (h : v1.coreAgree v2)
    (sample_time : ℝ) (inputs : List (ℝ × ℝ)) :
    v1.traj sample_time inputs = v2.traj sample_time inputs := by
  cases inputs with
  | nil => rfl
  | cons p rest =>
    obtain ⟨t, al⟩ := p
    simp only [Vehicle.traj]
    rw [step_congr h]

/-- C10: resetting a model after any sequence of prior steps and then stepping
through any input sequence yields exactly the state trajectory of a freshly
constructed model on the same inputs — the stale intermediate attributes that
reset leaves behind have no influence, because step reads only the five state
fields and the fixed parameters. -/
theorem reset_round_trip
    (sample_time : ℝ) (prior inputs : List (ℝ × ℝ)) :
    ((Vehicle.init.run sample_time prior).reset).traj sample_time inputs
      = Vehicle.init.traj sample_time inputs := by
  refine traj_congr ⟨?_, ?_⟩ sample_time inputs
  · have h1 : ((Vehicle.init.run sample_time prior).reset).params
        = (Vehicle.init.run sample_time prior).params := rfl
    rw [h1, run_params]
  · rfl

end
